import Mathlib

/-!
# Verification of the ScholarShare generate–render–inspect–repair core

This file gives a shallow embedding, in Lean 4, of the repair-loop core of the
ScholarShare repository (poster and presentation generation), together with the
layout-critic response classification and the runtime-settings override
mechanism, and proves (or refutes) the specification claims about them.

Modelling conventions:

* Python strings are modelled as `List Char`.  `str.strip`, `str.replace`,
  `str.upper`, `str.lower` and the `in` substring test are modelled by
  executable functions `pyStrip`, `pyReplace`, `pyUpper`, `pyLower`,
  `pyContains` below.  (`pyUpper`/`pyLower` use `Char.toUpper`/`Char.toLower`,
  which agree with Python on the ASCII text handled by the repository.)
* External effects (LaTeX compilation, PDF→image rasterization, and the two
  vision-model completion calls made by a critic invocation) are modelled as
  oracle environments: a record of functions giving, per repair cycle (and per
  page in the presentation variant), the outcome the outside world produced.
  A completion call that raises is modelled by the `PyResult.exc` constructor.
* Python float arithmetic for the presentation quality ratio is modelled by
  exact rational arithmetic in `ℚ`.
* The source loops (`_compile_and_analyze_poster` in
  `app/agents/poster_generator.py` and `_compile_and_analyze_presentation` in
  `app/agents/presentation_generator.py`) are embedded as well-founded
  recursive functions over the attempt/iteration counter, returning the final
  (artifact, document) pair together with an audit trail: the number of
  compile ("render") calls performed, the artifacts the layout critic was
  invoked on, and the final value of the loop counter.
-/

/-- Python `str.isspace` characters relevant to `str.strip()` (ASCII range,
which is all the repository's markup handling produces at string ends):
space, tab, newline, carriage return, vertical tab, form feed. -/
def isPyWs (c : Char) : Bool :=
  c == ' ' || c == '\t' || c == '\n' || c == '\x0d' || c == '\x0b' || c == '\x0c'

/-- Remove trailing characters satisfying `isPyWs` (the right half of
Python's `str.strip()`). -/
def dropTrailWs (l : List Char) : List Char :=
  (l.reverse.dropWhile isPyWs).reverse

/-- Python `str.strip()`: remove leading and trailing whitespace. -/
def pyStrip (l : List Char) : List Char :=
  dropTrailWs (l.dropWhile isPyWs)

/-- Python `str.upper()` (ASCII). -/
def pyUpper (l : List Char) : List Char := l.map Char.toUpper

/-- Python `str.lower()` (ASCII). -/
def pyLower (l : List Char) : List Char := l.map Char.toLower

/-- Python substring test `sub in hay`. -/
def pyContains (sub : List Char) : List Char → Bool
  | [] => sub.isEmpty
  | c :: rest => sub.isPrefixOf (c :: rest) || pyContains sub rest

/-- Worker for `pyReplace`: scans the haystack left to right; a positive
`skip` records how many characters of an already-matched occurrence remain to
be dropped.  Structural recursion on the haystack, so that the kernel can
evaluate it. -/
def pyReplaceGo (pat rep : List Char) : List Char → Nat → List Char
  | [], _ => []
  | _ :: cs, skip + 1 => pyReplaceGo pat rep cs skip
  | c :: cs, 0 =>
    if pat ≠ [] ∧ pat.isPrefixOf (c :: cs) then
      rep ++ pyReplaceGo pat rep cs (pat.length - 1)
    else
      c :: pyReplaceGo pat rep cs 0

/-- Python `hay.replace(pat, rep)`: replace every occurrence of `pat`,
scanning left to right, non-overlapping.  (The degenerate empty-pattern case,
never exercised by the repository, is modelled as the identity.) -/
def pyReplace (pat rep hay : List Char) : List Char :=
  pyReplaceGo pat rep hay 0

/-- Python truthiness of an `Optional[str]`: `None` and the empty string are
falsy. -/
def pyTruthyOpt : Option (List Char) → Bool
  | none => false
  | some s => !s.isEmpty

/-- The markdown code-fence opener stripped by the assemblers and critics. -/
def fenceLatex : List Char := "```latex".toList

/-- The bare markdown code fence stripped by the assemblers and critics. -/
def fence : List Char := "```".toList

/-- The document-class marker both `_clean_latex_code` functions test for. -/
def docclassMarker : List Char := "\\documentclass".toList

/-- The document-begin marker both `_clean_latex_code` functions test for. -/
def beginDocMarker : List Char := "\\begin{document}".toList

/-- `PosterGeneratorAgent._clean_latex_code` (poster_generator.py, lines
102–114): strip markdown fences, insert a tikzposter document class and a
document environment when missing, and strip outer whitespace. -/
def posterCleanLatexCode (latexCode : List Char) : List Char :=
  let s1 := pyReplace fenceLatex [] latexCode
  let s2 := pyReplace fence [] s1
  let s3 :=
    if pyContains docclassMarker s2 then s2
    else "\\documentclass[a0paper,portrait]{tikzposter}\n".toList ++ s2
  let s4 :=
    if pyContains beginDocMarker s3 then s3
    else s3 ++ "\n\\begin{document}\n\\maketitle\n\\end{document}".toList
  pyStrip s4

/-- `PresentationGeneratorAgent._clean_latex_code` (presentation_generator.py,
lines 173–185): same shape as the poster variant with Beamer insertions. -/
def presCleanLatexCode (latexCode : List Char) : List Char :=
  let s1 := pyReplace fenceLatex [] latexCode
  let s2 := pyReplace fence [] s1
  let s3 :=
    if pyContains docclassMarker s2 then s2
    else "\\documentclass{beamer}\n".toList ++ s2
  let s4 :=
    if pyContains beginDocMarker s3 then s3
    else s3 ++ "\n\\begin{document}\n\\end{document}".toList
  pyStrip s4

/-- Cleaning applied by both critics to the repair-generation response:
`fixed_latex.replace("```latex", "").replace("```", "").strip()`. -/
def stripFences (resp : List Char) : List Char :=
  pyStrip (pyReplace fence [] (pyReplace fenceLatex [] resp))

/-- Outcome of one external completion call: the returned text, or the
message of the exception it raised. -/
inductive PyResult (α : Type) where
  | ok (val : α)
  | exc (msg : List Char)
deriving DecidableEq

/-- Oracle for one Layout-Critic invocation: the base64 encoding produced by
`_image_to_base64` (`none` when the file is missing or encoding raised inside
that helper), the critique completion call's outcome, and the
repair-generation completion call's outcome. -/
structure CriticEnv where
  imageB64 : Option (List Char)
  critiqueResponse : PyResult (List Char)
  fixResponse : PyResult (List Char)
deriving DecidableEq

/-- The poster verdict heuristic (poster_layout_analyzer.py, lines 82–86):
`needs_fixing = "NO" in analysis_response.upper() and "fits properly" in
analysis_response`. -/
def posterNeedsFixing (resp : List Char) : Bool :=
  pyContains "NO".toList (pyUpper resp) && pyContains "fits properly".toList resp

/-- `PosterLayoutAnalyzerAgent.analyze_poster_layout` (poster_layout_analyzer.py):
returns `(fits_properly, analysis_message, fixed_latex)`.  The outer
`try/except` is modelled by the `PyResult.exc` branches. -/
def analyzePosterLayout (env : CriticEnv) : Bool × List Char × Option (List Char) :=
  match env.imageB64 with
  | none => (false, "Could not process poster image".toList, none)
  | some b64 =>
    if b64.isEmpty then (false, "Could not process poster image".toList, none)
    else
      match env.critiqueResponse with
      | .exc e => (false, "Error analyzing poster layout: ".toList ++ e, none)
      | .ok resp =>
        if posterNeedsFixing resp then
          match env.fixResponse with
          | .exc e => (false, "Error analyzing poster layout: ".toList ++ e, none)
          | .ok fx => (!posterNeedsFixing resp, resp, some (stripFences fx))
        else (!posterNeedsFixing resp, resp, none)

/-- The keyword set of the presentation verdict heuristic
(presentation_visual_analyzer.py, lines 101–115). -/
def presKeywords : List (List Char) :=
  ["poor", "fair", "cramped", "overflow", "cut-off", "overlapping",
   "unreadable", "too small", "needs improvement", "regenerate"].map String.toList

/-- The presentation verdict heuristic: `needs_improvement = any(keyword in
analysis_response.lower() for keyword in [...])`. -/
def presNeedsImprovement (resp : List Char) : Bool :=
  presKeywords.any fun k => pyContains k (pyLower resp)

/-- `PresentationVisualAnalyzerAgent.analyze_presentation_layout`
(presentation_visual_analyzer.py): returns
`(is_layout_good, analysis_feedback, suggested_fixes)`. -/
def analyzePresentationLayout (env : CriticEnv) : Bool × List Char × Option (List Char) :=
  match env.imageB64 with
  | none => (false, "Could not process presentation image".toList, none)
  | some b64 =>
    if b64.isEmpty then (false, "Could not process presentation image".toList, none)
    else
      match env.critiqueResponse with
      | .exc e => (false, "Error analyzing presentation layout: ".toList ++ e, none)
      | .ok resp =>
        if presNeedsImprovement resp then
          match env.fixResponse with
          | .exc e => (false, "Error analyzing presentation layout: ".toList ++ e, none)
          | .ok fx => (!presNeedsImprovement resp, resp, some (stripFences fx))
        else (!presNeedsImprovement resp, resp, none)

/-- An exception was raised during the poster critic invocation: image
encoding failed (modelled by `imageB64 = none`, since `_image_to_base64`
swallows its exceptions into `None`), the critique completion call raised, or
the repair-generation call raised (which only happens on the `needs_fixing`
path). -/
def posterCriticRaised (env : CriticEnv) : Prop :=
  env.imageB64 = none ∨
  (∃ e, env.critiqueResponse = .exc e) ∨
  (∃ resp, env.critiqueResponse = .ok resp ∧ posterNeedsFixing resp = true ∧
      ∃ e, env.fixResponse = .exc e)

/-- An exception was raised during the presentation critic invocation
(same cases as `posterCriticRaised`). -/
def presCriticRaised (env : CriticEnv) : Prop :=
  env.imageB64 = none ∨
  (∃ e, env.critiqueResponse = .exc e) ∨
  (∃ resp, env.critiqueResponse = .ok resp ∧ presNeedsImprovement resp = true ∧
      ∃ e, env.fixResponse = .exc e)

/-- The artifact handle produced by `PosterGeneratorAgent._compile_latex`:
the compiled PDF on success; otherwise the fallback produced by
`_generate_fallback_poster` — an HTML page embedding the literal markup
source, or, if even writing that fails, the constant
`outputs/posters/poster_generation_failed.txt` path.  The constructor argument
records which markup document the artifact was produced from. -/
inductive PosterArtifact where
  | pdf (doc : List Char)
  | fallbackHtml (doc : List Char)
  | failedTxt
deriving DecidableEq

/-- Python truthiness of the path returned by `_compile_latex`: every return
path of the source yields a non-empty path string
(`outputs/posters/..._poster.pdf`, `..._poster.html`, or
`poster_generation_failed.txt`), so `if not pdf_path:` is never taken. -/
def posterArtifactPathFalsy (_ : PosterArtifact) : Bool := false

/-- Oracle for one poster repair session, indexed by the attempt (render
cycle) number: whether pdflatex produced a PDF, whether writing the fallback
HTML succeeded, whether PDF→image rasterization produced an image, and the
critic-invocation oracle for that cycle. -/
structure PosterEnv where
  compileOk : Nat → Bool
  fallbackOk : Nat → Bool
  rasterizeOk : Nat → Bool
  critic : Nat → CriticEnv

/-- `PosterGeneratorAgent._compile_latex` on cycle `k` for document `doc`. -/
def posterCompileLatex (env : PosterEnv) (doc : List Char) (k : Nat) : PosterArtifact :=
  if env.compileOk k then .pdf doc
  else if env.fallbackOk k then .fallbackHtml doc
  else .failedTxt

/-- Result of a poster repair session, with its audit trail: the returned
`(pdf_path, final_latex_code)` pair, the number of `_compile_latex` calls
(render cycles) performed, the artifacts `analyze_poster_layout` was invoked
on (in order), and the final value of the `attempt` counter. -/
structure PosterResult where
  artifact : PosterArtifact
  doc : List Char
  renders : Nat
  inspected : List PosterArtifact
  finalAttempt : Nat
deriving DecidableEq

/-- `PosterGeneratorAgent._compile_and_analyze_poster` (poster_generator.py,
lines 219–268): the `while attempt <= self.max_fix_attempts` loop, embedded as
recursion on the attempt counter.  Each entry performs one render cycle;
the recursive call corresponds to adopting a suggested repair (cleaned by
`_clean_latex_code`) and incrementing `attempt`, which the source guards by
`fixed_latex and attempt < self.max_fix_attempts` (Python truthiness of the
suggestion: non-`None` and non-empty). -/
def posterLoop (env : PosterEnv) (maxFixAttempts : Nat) (currentLatex : List Char)
    (attempt : Nat) : PosterResult :=
  let artifact := posterCompileLatex env currentLatex attempt
  if posterArtifactPathFalsy artifact then
    -- `if not pdf_path: break` followed by `return pdf_path, current_latex`
    ⟨artifact, currentLatex, 1, [], attempt⟩
  else if env.rasterizeOk attempt = false then
    -- `if not poster_image_path: return pdf_path, current_latex`
    ⟨artifact, currentLatex, 1, [], attempt⟩
  else
    let ins := analyzePosterLayout (env.critic attempt)
    if ins.1 then
      ⟨artifact, currentLatex, 1, [artifact], attempt⟩
    else
      match ins.2.2 with
      | some f =>
        if h : f ≠ [] ∧ attempt < maxFixAttempts then
          let r := posterLoop env maxFixAttempts (posterCleanLatexCode f) (attempt + 1)
          ⟨r.artifact, r.doc, r.renders + 1, artifact :: r.inspected, r.finalAttempt⟩
        else ⟨artifact, currentLatex, 1, [artifact], attempt⟩
      | none => ⟨artifact, currentLatex, 1, [artifact], attempt⟩
termination_by maxFixAttempts - attempt
decreasing_by omega

/-- The artifact handle produced by the presentation `_compile_latex`
(which, unlike the poster variant, returns `None` on failure); the argument
records the markup the PDF was compiled from. -/
inductive PresArtifact where
  | pdf (doc : List Char)
deriving DecidableEq

/-- Oracle for one presentation repair session: per iteration, whether
compilation produced a PDF; per iteration and page number, whether
PDF→image conversion produced an image, and the critic oracle for that page. -/
structure PresEnv where
  compileOk : Nat → Bool
  rasterizeOk : Nat → Nat → Bool
  critic : Nat → Nat → CriticEnv

/-- `pages_to_analyze` computation (presentation_generator.py, lines
251–256): `max(1, total_slides // 2)` followed by a conditional bump,
`if pages_to_analyze < total_slides // 2: pages_to_analyze = total_slides // 2
+ 1`, reproduced verbatim (Python `//` on non-negative ints is `Nat.div`). -/
def pagesToAnalyze (totalSlides : Nat) : Nat :=
  let p := max 1 (totalSlides / 2)
  if p < totalSlides / 2 then totalSlides / 2 + 1 else p

/-- The page numbers actually iterated over:
`range(1, min(pages_to_analyze + 1, total_slides + 1))`. -/
def samplePages (totalSlides : Nat) : List Nat :=
  List.range' 1 (min (pagesToAnalyze totalSlides) totalSlides)

/-- Accumulator of the per-page analysis loop: `all_analyses` (page number
and verdict), `improvement_suggestions`, and `slides_analyzed`. -/
structure ScanState where
  analyses : List (Nat × Bool)
  suggestions : List (List Char)
  analyzed : Nat
deriving DecidableEq

/-- The per-page analysis loop of one presentation repair iteration
(presentation_generator.py, lines 266–301): for each sampled page, convert it
to an image; when that succeeds, invoke the visual analyzer and record the
verdict, appending the suggestion when one was produced for a bad page
(`if improved_latex and not is_good`). -/
def scanStep (env : PresEnv) (iter : Nat) (st : ScanState) (p : Nat) : ScanState :=
  if env.rasterizeOk iter p then
    { analyses := st.analyses ++ [(p, (analyzePresentationLayout (env.critic iter p)).1)]
      suggestions := st.suggestions ++
        (match (analyzePresentationLayout (env.critic iter p)).2.2 with
         | some f =>
           if f ≠ [] ∧ (analyzePresentationLayout (env.critic iter p)).1 = false then [f]
           else []
         | none => [])
      analyzed := st.analyzed + 1 }
  else st

def scanPages (env : PresEnv) (iter : Nat) (pages : List Nat) : ScanState :=
  pages.foldl (scanStep env iter) ⟨[], [], 0⟩

/-- `good_slides` over a scan: `sum(1 for _, is_good, _ in all_analyses if
is_good)`. -/
def goodSlides (st : ScanState) : Nat :=
  (st.analyses.filter fun pb => pb.2).length

/-- Result of a presentation repair session: the returned
`(pdf_path, final_latex)` pair (`pdf_path` is `None` exactly when compilation
failed and the loop broke), the number of compile calls, and the final value
of the `iteration` counter. -/
structure PresResult where
  pdfPath : Option PresArtifact
  doc : List Char
  renders : Nat
  finalIteration : Nat
deriving DecidableEq

/-- `PresentationGeneratorAgent._compile_and_analyze_presentation`
(presentation_generator.py, lines 237–325): the `while iteration <
self.max_iterations` loop.  The quality gate compares
`good_slides / slides_analyzed` (Python float division, modelled exactly in
`ℚ`) against the `quality_threshold` of `0.7`.  A repair is adopted when
`improvement_suggestions` is non-empty and `iteration < max_iterations - 1`,
taking the last suggestion, cleaned by `_clean_latex_code`.  (When the loop
body never runs — `max_iterations = 0`, which the source never does, its
budget being the constant 1 — the source would raise `NameError` on the final
`return pdf_path, current_latex`; this is modelled as a `none` artifact.) -/
def presLoop (env : PresEnv) (maxIterations totalSlides : Nat) (currentLatex : List Char)
    (iteration : Nat) : PresResult :=
  if iteration < maxIterations then
    if env.compileOk iteration = false then
      -- `if not pdf_path: break`, then `return pdf_path, current_latex`
      ⟨none, currentLatex, 1, iteration⟩
    else if (scanPages env iteration (samplePages totalSlides)).analyzed = 0 then
      ⟨some (.pdf currentLatex), currentLatex, 1, iteration⟩
    else if (7 : ℚ) / 10 ≤
        (goodSlides (scanPages env iteration (samplePages totalSlides)) : ℚ) /
          ((scanPages env iteration (samplePages totalSlides)).analyzed : ℚ) then
      ⟨some (.pdf currentLatex), currentLatex, 1, iteration⟩
    else if h : (scanPages env iteration (samplePages totalSlides)).suggestions ≠ [] ∧
        iteration < maxIterations - 1 then
      let r := presLoop env maxIterations totalSlides
        (presCleanLatexCode
          ((scanPages env iteration (samplePages totalSlides)).suggestions.getLast h.1))
        (iteration + 1)
      ⟨r.pdfPath, r.doc, r.renders + 1, r.finalIteration⟩
    else
      ⟨some (.pdf currentLatex), currentLatex, 1, iteration⟩
  else
    ⟨none, currentLatex, 0, iteration⟩
termination_by maxIterations - iteration
decreasing_by omega

/-- State of the `Settings` object (app/config/settings.py): the
environment-loaded defaults (`getattr(self, key, "")`) and the
`_runtime_overrides` dict, modelled as a partial map. -/
structure SettingsState where
  envDefaults : List Char → List Char
  overrides : List Char → Option (List Char)

/-- `Settings.get_value`: `self._runtime_overrides.get(key, getattr(self,
key, ""))`. -/
def getValue (st : SettingsState) (key : List Char) : List Char :=
  match st.overrides key with
  | some v => v
  | none => st.envDefaults key

/-- `Settings.set_override` (settings.py, lines 63–71): store the stripped
value when `value and value.strip()` is truthy; otherwise delete an existing
override for the key, if any. -/
def setOverride (st : SettingsState) (key value : List Char) : SettingsState :=
  if value ≠ [] ∧ pyStrip value ≠ [] then
    { st with overrides := fun k => if k = key then some (pyStrip value) else st.overrides k }
  else if (st.overrides key).isSome then
    { st with overrides := fun k => if k = key then none else st.overrides k }
  else st

/-! ### Concrete fixtures used by witnesses and counterexamples -/

/-- A base64 payload standing for a successfully encoded bitmap. -/
def imgB64 : List Char := "aW1hZ2U=".toList

/-- A critique response the poster heuristic classifies as `Unfit`: its
upper-casing contains `"NO"` and it contains the literal `"fits properly"`. -/
def respUnfitPoster : List Char :=
  "NO. The content overflows: the check whether it fits properly failed.".toList

/-- A critique response the poster heuristic classifies as `Fit` (it lacks
the literal substring `"fits properly"`). -/
def respFitPoster : List Char := "Everything looks good.".toList

/-- A well-formed markup document used as repair suggestion A. -/
def latexA : List Char :=
  "\\documentclass{tikzposter}\n\\begin{document}\nBlock A\n\\end{document}".toList

/-- A well-formed markup document used as repair suggestion B. -/
def latexB : List Char :=
  "\\documentclass{tikzposter}\n\\begin{document}\nBlock B\n\\end{document}".toList

/-- The initial first-draft markup used by the concrete scenarios. -/
def latexInit : List Char :=
  "\\documentclass{tikzposter}\n\\begin{document}\nDraft\n\\end{document}".toList

/-- Critic oracle answering `Unfit` with suggestion `fix`. -/
def criticUnfitWith (fix : List Char) : CriticEnv :=
  ⟨some imgB64, .ok respUnfitPoster, .ok fix⟩

/-- Critic oracle answering `Unfit` whose repair-generation call raises, so
no suggestion is produced. -/
def criticUnfitNoSugg : CriticEnv :=
  ⟨some imgB64, .ok respUnfitPoster, .exc "fix generation failed".toList⟩

/-- Critic oracle answering `Fit`. -/
def criticFit : CriticEnv :=
  ⟨some imgB64, .ok respFitPoster, .ok []⟩

/-- Poster-session oracle for the C2 scenario: every render and
rasterization succeeds; cycle 0 critiques `Unfit` with suggestion A, cycle 1
`Unfit` with suggestion B, cycle 2 `Unfit` with no suggestion. -/
def envC2 : PosterEnv where
  compileOk _ := true
  fallbackOk _ := true
  rasterizeOk _ := true
  critic k := if k = 0 then criticUnfitWith latexA
              else if k = 1 then criticUnfitWith latexB
              else criticUnfitNoSugg

/-- Poster-session oracle where every cycle critiques `Unfit` with
suggestion B and everything else succeeds. -/
def envAllUnfit : PosterEnv where
  compileOk _ := true
  fallbackOk _ := true
  rasterizeOk _ := true
  critic _ := criticUnfitWith latexB

/-- Poster-session oracle whose first rasterization fails. -/
def envRasterFail : PosterEnv where
  compileOk _ := true
  fallbackOk _ := true
  rasterizeOk _ := false
  critic _ := criticFit

/-- Poster-session oracle for the C8 counterexample: the first compile fails
(producing the fallback HTML artifact), rasterization of that fallback
succeeds, the critic judges it `Unfit` with suggestion B, and the second
compile succeeds with a `Fit` verdict. -/
def envC8 : PosterEnv where
  compileOk k := !(k = 0)
  fallbackOk _ := true
  rasterizeOk _ := true
  critic k := if k = 0 then criticUnfitWith latexB else criticFit

/-- Poster-session oracle for the amended C8: the first compile fails and
rasterization of the fallback artifact also fails. -/
def envC8Amended : PosterEnv where
  compileOk _ := false
  fallbackOk _ := true
  rasterizeOk _ := false
  critic _ := criticFit

/-- A critique response the presentation heuristic classifies as good (no
keyword of `presKeywords` occurs in its lower-casing). -/
def respGoodPres : List Char := "Excellent slide, well organized.".toList

/-- A critique response the presentation heuristic classifies as needing
improvement (contains the keyword `"poor"`). -/
def respPoorPres : List Char := "Poor layout, text is clipped.".toList

/-- Presentation-session oracle for the C4 witness: compilation and every
rasterization succeed; on iteration 0 the first four pages are judged good
and every later page is judged poor (with suggestion B). -/
def envC4 : PresEnv where
  compileOk _ := true
  rasterizeOk _ _ := true
  critic _ p := if p ≤ 4 then ⟨some imgB64, .ok respGoodPres, .ok latexB⟩
                else ⟨some imgB64, .ok respPoorPres, .ok latexB⟩

/-- Critic oracle whose image encoding failed. -/
def criticEncodeFail : CriticEnv := ⟨none, .ok [], .ok []⟩

/-- Critic oracle whose critique completion call raised. -/
def criticCallRaises : CriticEnv := ⟨some imgB64, .exc "provider error".toList, .ok []⟩

/-- A well-formed markup document for the normalization-idempotence witness. -/
def latexWellFormed : List Char :=
  "\\documentclass{beamer}\n\\begin{document}\nHello\n\\end{document}".toList

/-- A settings key used by the C10 witness. -/
def keyW : List Char := "HEAVY_MODEL_API_KEY".toList

/-- A settings state with one override present, for the C10 witness. -/
def settingsW : SettingsState where
  envDefaults _ := "env-default".toList
  overrides k := if k = keyW then some "old-override".toList else none

/-! ### Helper lemmas: Python string primitives -/

/-- `pyContains` decides the substring (infix) relation. -/
theorem pyContains_iff (sub hay : List Char) : pyContains sub hay = true ↔ sub <:+: hay := by
  induction hay with
  | nil => simp [pyContains, List.isEmpty_iff]
  | cons c cs ih =>
    simp only [pyContains, Bool.or_eq_true, List.isPrefixOf_iff_prefix, ih,
       List.infix_cons_iff]

theorem posterArtifactPathFalsy_eq (a : PosterArtifact) :
    posterArtifactPathFalsy a = false := rfl

/-- `pyReplace` leaves a string that contains no occurrence of the pattern
unchanged. -/
theorem pyReplaceGo_eq_self (pat rep hay : List Char)
    (h : ¬ pat <:+: hay) : pyReplaceGo pat rep hay 0 = hay := by
  induction hay with
  | nil => rfl
  | cons c cs ih =>
    have hpre : ¬ (pat ≠ [] ∧ pat.isPrefixOf (c :: cs)) := by
      rintro ⟨-, hp⟩
      exact h (List.isPrefixOf_iff_prefix.mp hp).isInfix
    rw [pyReplaceGo, if_neg hpre, ih (fun hcs => h (List.infix_cons hcs))]

theorem pyReplace_eq_self (pat rep hay : List Char)
    (h : ¬ pat <:+: hay) : pyReplace pat rep hay = hay :=
  pyReplaceGo_eq_self pat rep hay h

theorem dropWhile_dropWhile (p : Char → Bool) (l : List Char) :
    (l.dropWhile p).dropWhile p = l.dropWhile p := by
  induction l with
  | nil => rfl
  | cons c cs ih =>
    by_cases hp : p c = true <;>
      simp [List.dropWhile_cons, hp, ih]

theorem dropWhile_head_cases (p : Char → Bool) (l : List Char) :
    l.dropWhile p = [] ∨ ∃ c cs, l.dropWhile p = c :: cs ∧ p c = false := by
  induction l with
  | nil => exact Or.inl rfl
  | cons c cs ih =>
    by_cases hp : p c = true
    · simpa [List.dropWhile_cons, hp] using ih
    · exact Or.inr ⟨c, cs, by simp [List.dropWhile_cons, hp], by simp [hp]⟩

theorem dropWhile_eq_self_of_head (p : Char → Bool) (l : List Char)
    (h : ∀ c cs, l = c :: cs → p c = false) : l.dropWhile p = l := by
  cases l with
  | nil => rfl
  | cons c cs => simp [List.dropWhile_cons, h c cs rfl]

theorem dropTrailWs_isPrefix (l : List Char) : dropTrailWs l <+: l := by
  have hs : (l.reverse.dropWhile isPyWs) <:+ l.reverse := List.dropWhile_suffix _
  have hs' : (dropTrailWs l).reverse <:+ l.reverse := by
    simpa [dropTrailWs] using hs
  exact List.reverse_suffix.mp hs'

theorem pyStrip_idem (l : List Char) : pyStrip (pyStrip l) = pyStrip l := by
  have h1 : (dropTrailWs (l.dropWhile isPyWs)).dropWhile isPyWs
      = dropTrailWs (l.dropWhile isPyWs) := by
    rcases dropWhile_head_cases isPyWs l with h | ⟨c, cs, hcc, hpc⟩
    · rw [h]; rfl
    · apply dropWhile_eq_self_of_head
      intro c' cs' hc'
      have hpre : dropTrailWs (l.dropWhile isPyWs) <+: l.dropWhile isPyWs :=
        dropTrailWs_isPrefix _
      rw [hc', hcc] at hpre
      obtain ⟨r, hr⟩ := hpre
      simp only [List.cons_append, List.cons.injEq] at hr
      rw [hr.1]
      exact hpc
  show dropTrailWs ((dropTrailWs (l.dropWhile isPyWs)).dropWhile isPyWs)
      = dropTrailWs (l.dropWhile isPyWs)
  rw [h1]
  simp [dropTrailWs, List.reverse_reverse, dropWhile_dropWhile]

theorem isInfix_dropWhile_of_head (p : Char → Bool) (t l : List Char) (c0 : Char)
    (ts : List Char) (hT : t = c0 :: ts) (hh : p c0 = false) (h : t <:+: l) :
    t <:+: l.dropWhile p := by
  induction l with
  | nil => simpa using h
  | cons c cs ih =>
    rw [List.dropWhile_cons]
    by_cases hp : p c = true
    · rw [if_pos hp]
      apply ih
      rcases List.infix_cons_iff.mp h with hpre | hinf
      · exfalso
        obtain ⟨r, hr⟩ := hpre
        rw [hT] at hr
        simp only [List.cons_append, List.cons.injEq] at hr
        rw [hr.1, hp] at hh
        exact Bool.noConfusion hh
      · exact hinf
    · rw [if_neg hp]
      exact h

theorem isInfix_pyStrip (t l : List Char) (ht : t ≠ [])
    (hws : ∀ c ∈ t, isPyWs c = false) (h : t <:+: l) : t <:+: pyStrip l := by
  obtain ⟨c0, ts, hT⟩ := List.exists_cons_of_ne_nil ht
  have h1 : t <:+: l.dropWhile isPyWs :=
    isInfix_dropWhile_of_head isPyWs t l c0 ts hT
      (hws c0 (hT ▸ List.mem_cons_self c0 ts)) h
  have h2 : t.reverse <:+: (l.dropWhile isPyWs).reverse := List.reverse_infix.mpr h1
  have htr : t.reverse ≠ [] := by simpa using ht
  obtain ⟨d0, ds, hTr⟩ := List.exists_cons_of_ne_nil htr
  have hd0 : isPyWs d0 = false := by
    apply hws
    have hmem : d0 ∈ t.reverse := hTr ▸ List.mem_cons_self d0 ds
    simpa using hmem
  have h3 : t.reverse <:+: ((l.dropWhile isPyWs).reverse).dropWhile isPyWs :=
    isInfix_dropWhile_of_head isPyWs t.reverse _ d0 ds hTr hd0 h2
  show t <:+: dropTrailWs (l.dropWhile isPyWs)
  apply List.reverse_infix.mp
  show t.reverse <:+: (dropTrailWs (l.dropWhile isPyWs)).reverse
  simpa [dropTrailWs, List.reverse_reverse] using h3

theorem pyStrip_sub (l : List Char) : pyStrip l <:+: l :=
  ((dropTrailWs_isPrefix _).isInfix).trans ((List.dropWhile_suffix _).isInfix)

theorem fenceLatex_not_sub {s : List Char} (h : ¬ fence <:+: s) : ¬ fenceLatex <:+: s :=
  fun hf => h ((by decide : fence <+: fenceLatex).isInfix.trans hf)

theorem posterClean_eq_pyStrip (s : List Char)
    (h1 : pyContains docclassMarker s = true) (h2 : pyContains beginDocMarker s = true)
    (h3 : ¬ fence <:+: s) :
    posterCleanLatexCode s = pyStrip s := by
  have e1 : pyReplace fenceLatex [] s = s := pyReplace_eq_self _ _ _ (fenceLatex_not_sub h3)
  have e2 : pyReplace fence [] s = s := pyReplace_eq_self _ _ _ h3
  simp only [posterCleanLatexCode, e1, e2, h1, h2, if_true]

theorem presClean_eq_pyStrip (s : List Char)
    (h1 : pyContains docclassMarker s = true) (h2 : pyContains beginDocMarker s = true)
    (h3 : ¬ fence <:+: s) :
    presCleanLatexCode s = pyStrip s := by
  have e1 : pyReplace fenceLatex [] s = s := pyReplace_eq_self _ _ _ (fenceLatex_not_sub h3)
  have e2 : pyReplace fence [] s = s := pyReplace_eq_self _ _ _ h3
  simp only [presCleanLatexCode, e1, e2, h1, h2, if_true]

/-- C9: the Document Assembler's structural normalization `_clean_latex_code`
(both the poster and the presentation variant) is idempotent on already
well-formed markup: any input containing the document-class marker and the
document-begin marker and free of code-fence artifacts is normalized to the
same byte sequence by one and by two applications. -/
theorem c9_clean_idempotent (s : List Char)
    (h1 : pyContains docclassMarker s = true)
    (h2 : pyContains beginDocMarker s = true)
    (h3 : pyContains fence s = false) :
    posterCleanLatexCode (posterCleanLatexCode s) = posterCleanLatexCode s ∧
    presCleanLatexCode (presCleanLatexCode s) = presCleanLatexCode s := by
  have h3' : ¬ fence <:+: s := fun hI => by
    rw [(pyContains_iff fence s).mpr hI] at h3
    exact Bool.noConfusion h3
  have hs1 : pyContains docclassMarker (pyStrip s) = true :=
    (pyContains_iff _ _).mpr
      (isInfix_pyStrip _ _ (by decide) (by decide) ((pyContains_iff _ _).mp h1))
  have hs2 : pyContains beginDocMarker (pyStrip s) = true :=
    (pyContains_iff _ _).mpr
      (isInfix_pyStrip _ _ (by decide) (by decide) ((pyContains_iff _ _).mp h2))
  have hs3 : ¬ fence <:+: pyStrip s := fun hI => h3' (hI.trans (pyStrip_sub s))
  constructor
  · rw [posterClean_eq_pyStrip s h1 h2 h3', posterClean_eq_pyStrip _ hs1 hs2 hs3,
      pyStrip_idem]
  · rw [presClean_eq_pyStrip s h1 h2 h3', presClean_eq_pyStrip _ hs1 hs2 hs3,
      pyStrip_idem]

/-- Witness for C9 at a concrete well-formed document. -/
theorem c9_clean_idempotent_witness :
    pyContains docclassMarker latexWellFormed = true ∧
    pyContains beginDocMarker latexWellFormed = true ∧
    pyContains fence latexWellFormed = false ∧
    (posterCleanLatexCode (posterCleanLatexCode latexWellFormed) =
        posterCleanLatexCode latexWellFormed ∧
     presCleanLatexCode (presCleanLatexCode latexWellFormed) =
        presCleanLatexCode latexWellFormed) :=
  ⟨by decide, by decide, by decide,
    c9_clean_idempotent latexWellFormed (by decide) (by decide) (by decide)⟩

/-! ### Helper lemmas: the poster repair loop, one step per source branch -/

theorem posterLoop_eq_rasterFail (env : PosterEnv) (maxA : Nat) (cur : List Char)
    (attempt : Nat) (h : env.rasterizeOk attempt = false) :
    posterLoop env maxA cur attempt =
      ⟨posterCompileLatex env cur attempt, cur, 1, [], attempt⟩ := by
  unfold posterLoop
  simp [posterArtifactPathFalsy, h]

theorem posterLoop_eq_fits (env : PosterEnv) (maxA : Nat) (cur : List Char)
    (attempt : Nat) (hr : env.rasterizeOk attempt = true)
    (hf : (analyzePosterLayout (env.critic attempt)).1 = true) :
    posterLoop env maxA cur attempt =
      ⟨posterCompileLatex env cur attempt, cur, 1,
        [posterCompileLatex env cur attempt], attempt⟩ := by
  unfold posterLoop
  simp [posterArtifactPathFalsy, hr, hf]

theorem posterLoop_eq_stop (env : PosterEnv) (maxA : Nat) (cur : List Char)
    (attempt : Nat) (hr : env.rasterizeOk attempt = true)
    (hf : (analyzePosterLayout (env.critic attempt)).1 = false)
    (hs : ∀ f, (analyzePosterLayout (env.critic attempt)).2.2 = some f →
      f = [] ∨ ¬ attempt < maxA) :
    posterLoop env maxA cur attempt =
      ⟨posterCompileLatex env cur attempt, cur, 1,
        [posterCompileLatex env cur attempt], attempt⟩ := by
  unfold posterLoop
  cases h22 : (analyzePosterLayout (env.critic attempt)).2.2 with
  | none => simp [posterArtifactPathFalsy, hr, hf, h22]
  | some f =>
    have : ¬ (f ≠ [] ∧ attempt < maxA) := by
      rcases hs f h22 with h | h
      · simp [h]
      · simp [h]
    simp [posterArtifactPathFalsy, hr, hf, h22, this]

theorem posterLoop_eq_recurse (env : PosterEnv) (maxA : Nat) (cur : List Char)
    (attempt : Nat) (f : List Char) (hr : env.rasterizeOk attempt = true)
    (hf : (analyzePosterLayout (env.critic attempt)).1 = false)
    (hs : (analyzePosterLayout (env.critic attempt)).2.2 = some f)
    (hne : f ≠ []) (hlt : attempt < maxA) :
    posterLoop env maxA cur attempt =
      ⟨(posterLoop env maxA (posterCleanLatexCode f) (attempt + 1)).artifact,
       (posterLoop env maxA (posterCleanLatexCode f) (attempt + 1)).doc,
       (posterLoop env maxA (posterCleanLatexCode f) (attempt + 1)).renders + 1,
       posterCompileLatex env cur attempt ::
         (posterLoop env maxA (posterCleanLatexCode f) (attempt + 1)).inspected,
       (posterLoop env maxA (posterCleanLatexCode f) (attempt + 1)).finalAttempt⟩ := by
  conv_lhs => rw [posterLoop]
  simp [posterArtifactPathFalsy, hr, hf, hs, hne, hlt]

/-- Render-count and attempt-counter bound for the poster loop, by strong
induction on the remaining budget. -/
theorem posterLoop_bound (env : PosterEnv) (maxA : Nat) :
    ∀ n attempt cur, maxA - attempt ≤ n →
      (posterLoop env maxA cur attempt).renders ≤ (maxA - attempt) + 1 ∧
      (posterLoop env maxA cur attempt).finalAttempt ≤ Nat.max attempt maxA := by
  intro n
  induction n with
  | zero =>
    intro attempt cur h
    have hge : ¬ attempt < maxA := by omega
    by_cases hr : env.rasterizeOk attempt = true
    · by_cases hf : (analyzePosterLayout (env.critic attempt)).1 = true
      · rw [posterLoop_eq_fits env maxA cur attempt hr hf]
        constructor <;> simp [Nat.le_max_left]
      · rw [posterLoop_eq_stop env maxA cur attempt hr (by simpa using hf)
          (fun f _ => Or.inr hge)]
        constructor <;> simp [Nat.le_max_left]
    · rw [posterLoop_eq_rasterFail env maxA cur attempt (by simpa using hr)]
      constructor <;> simp [Nat.le_max_left]
  | succ n ih =>
    intro attempt cur h
    by_cases hr : env.rasterizeOk attempt = true
    · by_cases hf : (analyzePosterLayout (env.critic attempt)).1 = true
      · rw [posterLoop_eq_fits env maxA cur attempt hr hf]
        constructor <;> simp [Nat.le_max_left]
      · cases h22 : (analyzePosterLayout (env.critic attempt)).2.2 with
        | none =>
          rw [posterLoop_eq_stop env maxA cur attempt hr (by simpa using hf)
            (by intro f hf'; rw [h22] at hf'; exact Option.noConfusion hf')]
          constructor <;> simp [Nat.le_max_left]
        | some f =>
          by_cases hne : f = []
          · rw [posterLoop_eq_stop env maxA cur attempt hr (by simpa using hf)
              (by intro f' hf'; rw [h22] at hf'; exact Or.inl (by
                cases hf'; exact hne))]
            constructor <;> simp [Nat.le_max_left]
          · by_cases hlt : attempt < maxA
            · rw [posterLoop_eq_recurse env maxA cur attempt f hr
                (by simpa using hf) h22 hne hlt]
              have hrec := ih (attempt + 1) (posterCleanLatexCode f) (by omega)
              have e1 : Nat.max (attempt + 1) maxA = maxA := Nat.max_eq_right (by omega)
              have e2 : maxA ≤ Nat.max attempt maxA := Nat.le_max_right _ _
              rw [e1] at hrec
              constructor
              · simp only []
                omega
              · simp only []
                omega
            · rw [posterLoop_eq_stop env maxA cur attempt hr (by simpa using hf)
                (fun f' _ => Or.inr hlt)]
              constructor <;> simp [Nat.le_max_left]
    · rw [posterLoop_eq_rasterFail env maxA cur attempt (by simpa using hr)]
      constructor <;> simp [Nat.le_max_left]

/-! ### Helper lemmas: the presentation repair loop -/

set_option maxHeartbeats 1600000 in
theorem presLoop_eq_notEntered (env : PresEnv) (maxI total : Nat) (cur : List Char)
    (iteration : Nat) (h : ¬ iteration < maxI) :
    presLoop env maxI total cur iteration = ⟨none, cur, 0, iteration⟩ := by
  unfold presLoop
  rw [if_neg h]

theorem presLoop_eq_compileFail (env : PresEnv) (maxI total : Nat) (cur : List Char)
    (iteration : Nat) (h : iteration < maxI) (hc : env.compileOk iteration = false) :
    presLoop env maxI total cur iteration = ⟨none, cur, 1, iteration⟩ := by
  unfold presLoop
  rw [if_pos h, if_pos hc]

theorem presLoop_eq_noScan (env : PresEnv) (maxI total : Nat) (cur : List Char)
    (iteration : Nat) (h : iteration < maxI) (hc : env.compileOk iteration = true)
    (ha : (scanPages env iteration (samplePages total)).analyzed = 0) :
    presLoop env maxI total cur iteration =
      ⟨some (.pdf cur), cur, 1, iteration⟩ := by
  unfold presLoop
  rw [if_pos h, if_neg (by simp [hc]), if_pos ha]

theorem presLoop_eq_ratioOk (env : PresEnv) (maxI total : Nat) (cur : List Char)
    (iteration : Nat) (h : iteration < maxI) (hc : env.compileOk iteration = true)
    (ha : (scanPages env iteration (samplePages total)).analyzed ≠ 0)
    (hq : (7 : ℚ) / 10 ≤
      (goodSlides (scanPages env iteration (samplePages total)) : ℚ) /
        ((scanPages env iteration (samplePages total)).analyzed : ℚ)) :
    presLoop env maxI total cur iteration =
      ⟨some (.pdf cur), cur, 1, iteration⟩ := by
  unfold presLoop
  rw [if_pos h, if_neg (by simp [hc]), if_neg ha, if_pos hq]

theorem presLoop_eq_stop (env : PresEnv) (maxI total : Nat) (cur : List Char)
    (iteration : Nat) (h : iteration < maxI) (hc : env.compileOk iteration = true)
    (ha : (scanPages env iteration (samplePages total)).analyzed ≠ 0)
    (hq : ¬ (7 : ℚ) / 10 ≤
      (goodSlides (scanPages env iteration (samplePages total)) : ℚ) /
        ((scanPages env iteration (samplePages total)).analyzed : ℚ))
    (hstop : ¬ ((scanPages env iteration (samplePages total)).suggestions ≠ [] ∧
      iteration < maxI - 1)) :
    presLoop env maxI total cur iteration =
      ⟨some (.pdf cur), cur, 1, iteration⟩ := by
  unfold presLoop
  rw [if_pos h, if_neg (by simp [hc]), if_neg ha, if_neg hq, dif_neg hstop]

theorem presLoop_eq_recurse (env : PresEnv) (maxI total : Nat) (cur : List Char)
    (iteration : Nat) (h : iteration < maxI) (hc : env.compileOk iteration = true)
    (ha : (scanPages env iteration (samplePages total)).analyzed ≠ 0)
    (hq : ¬ (7 : ℚ) / 10 ≤
      (goodSlides (scanPages env iteration (samplePages total)) : ℚ) /
        ((scanPages env iteration (samplePages total)).analyzed : ℚ))
    (h1 : (scanPages env iteration (samplePages total)).suggestions ≠ [])
    (h2 : iteration < maxI - 1) :
    presLoop env maxI total cur iteration =
      ⟨(presLoop env maxI total (presCleanLatexCode
          ((scanPages env iteration (samplePages total)).suggestions.getLast h1))
          (iteration + 1)).pdfPath,
       (presLoop env maxI total (presCleanLatexCode
          ((scanPages env iteration (samplePages total)).suggestions.getLast h1))
          (iteration + 1)).doc,
       (presLoop env maxI total (presCleanLatexCode
          ((scanPages env iteration (samplePages total)).suggestions.getLast h1))
          (iteration + 1)).renders + 1,
       (presLoop env maxI total (presCleanLatexCode
          ((scanPages env iteration (samplePages total)).suggestions.getLast h1))
          (iteration + 1)).finalIteration⟩ := by
  conv_lhs => rw [presLoop]
  rw [if_pos h, if_neg (by simp [hc]), if_neg ha, if_neg hq, dif_pos ⟨h1, h2⟩]

/-- Render-count and iteration-counter bound for the presentation loop. -/
theorem presLoop_bound (env : PresEnv) (maxI total : Nat) :
    ∀ n iteration cur, maxI - iteration ≤ n →
      (presLoop env maxI total cur iteration).renders ≤ maxI - iteration ∧
      (presLoop env maxI total cur iteration).finalIteration ≤ Nat.max iteration maxI := by
  intro n
  induction n with
  | zero =>
    intro iteration cur h
    have hge : ¬ iteration < maxI := by omega
    rw [presLoop_eq_notEntered env maxI total cur iteration hge]
    constructor <;> simp [Nat.le_max_left]
  | succ n ih =>
    intro iteration cur h
    by_cases hit : iteration < maxI
    · by_cases hc : env.compileOk iteration = true
      · by_cases ha : (scanPages env iteration (samplePages total)).analyzed = 0
        · rw [presLoop_eq_noScan env maxI total cur iteration hit hc ha]
          constructor <;> simp [Nat.le_max_left] <;> omega
        · by_cases hq : (7 : ℚ) / 10 ≤
            (goodSlides (scanPages env iteration (samplePages total)) : ℚ) /
              ((scanPages env iteration (samplePages total)).analyzed : ℚ)
          · rw [presLoop_eq_ratioOk env maxI total cur iteration hit hc ha hq]
            constructor <;> simp [Nat.le_max_left] <;> omega
          · by_cases hrec : (scanPages env iteration (samplePages total)).suggestions ≠ [] ∧
              iteration < maxI - 1
            · rw [presLoop_eq_recurse env maxI total cur iteration hit hc ha hq
                hrec.1 hrec.2]
              have hr := ih (iteration + 1)
                (presCleanLatexCode
                  ((scanPages env iteration (samplePages total)).suggestions.getLast hrec.1))
                (by omega)
              have e1 : Nat.max (iteration + 1) maxI = maxI :=
                Nat.max_eq_right (by omega)
              have e2 : maxI ≤ Nat.max iteration maxI := Nat.le_max_right _ _
              rw [e1] at hr
              constructor
              · simp only []
                omega
              · simp only []
                omega
            · rw [presLoop_eq_stop env maxI total cur iteration hit hc ha hq hrec]
              constructor <;> simp [Nat.le_max_left] <;> omega
      · rw [presLoop_eq_compileFail env maxI total cur iteration hit
          (by simpa using hc)]
        constructor <;> simp [Nat.le_max_left] <;> omega
    · rw [presLoop_eq_notEntered env maxI total cur iteration hit]
      constructor <;> simp [Nat.le_max_left]

/-! ### Claim theorems -/

/-- C1: one repair session performs at most `maxAttempts + 1` render (LaTeX
compile) cycles and terminates returning an (artifact, document) pair: in the
poster loop the attempt counter never exceeds the fix budget, and in the
presentation loop at most `max_iterations` renders occur and the iteration
counter never exceeds its budget. -/
theorem c1_render_budget :
    (∀ (env : PosterEnv) (maxA : Nat) (doc : List Char),
      (posterLoop env maxA doc 0).renders ≤ maxA + 1 ∧
      (posterLoop env maxA doc 0).finalAttempt ≤ maxA) ∧
    (∀ (env : PresEnv) (maxI total : Nat) (doc : List Char),
      (presLoop env maxI total doc 0).renders ≤ maxI ∧
      (presLoop env maxI total doc 0).finalIteration ≤ maxI) := by
  constructor
  · intro env maxA doc
    have h := posterLoop_bound env maxA maxA 0 doc (by omega)
    simpa using h
  · intro env maxI total doc
    have h := presLoop_bound env maxI total maxI 0 doc (by omega)
    simpa using h

/-- C3 (code bug): the presentation variant computes
`pages_to_analyze = max(1, total_slides // 2)` with floor division — the
round-up branch can never fire — so for `total_slides = 3` only 1 page is
sampled, while the claimed formula `max(1, ceil(total/2))` gives 2. -/
theorem c3_pages_sampled_floor :
    pagesToAnalyze 3 = 1 ∧ (samplePages 3).length = 1 ∧
    max 1 ((3 + 1) / 2) = 2 ∧ pagesToAnalyze 3 ≠ max 1 ((3 + 1) / 2) := by
  decide

/-- C5: the poster Layout Critic classifies a critique response as `Unfit`
(returns `fits_properly = False`) iff the upper-cased response contains
`"NO"` and the raw response contains the exact substring `"fits properly"`;
any response lacking that exact substring is classified `Fit`. -/
theorem c5_poster_verdict (env : CriticEnv) (resp b64 : List Char)
    (hb : env.imageB64 = some b64) (hbne : b64 ≠ [])
    (hresp : env.critiqueResponse = .ok resp) :
    ((analyzePosterLayout env).1 = false ↔
      ("NO".toList <:+: pyUpper resp ∧ "fits properly".toList <:+: resp)) ∧
    (¬ "fits properly".toList <:+: resp → (analyzePosterLayout env).1 = true) := by
  have hbe : b64.isEmpty = false := by
    cases b64 with
    | nil => exact absurd rfl hbne
    | cons c cs => rfl
  have key : (analyzePosterLayout env).1 = !posterNeedsFixing resp := by
    simp only [analyzePosterLayout, hb, hbe, hresp, Bool.false_eq_true, if_false]
    by_cases hn : posterNeedsFixing resp = true
    · cases hfx : env.fixResponse with
      | ok fx => simp [hn, hfx]
      | exc e => simp [hn, hfx]
    · simp [hn]
  constructor
  · rw [key]
    constructor
    · intro hfalse
      have hpn : posterNeedsFixing resp = true := by
        cases hpn : posterNeedsFixing resp
        · rw [hpn] at hfalse
          exact Bool.noConfusion hfalse
        · rfl
      unfold posterNeedsFixing at hpn
      rw [Bool.and_eq_true] at hpn
      exact ⟨(pyContains_iff _ _).mp hpn.1, (pyContains_iff _ _).mp hpn.2⟩
    · rintro ⟨hno, hfits⟩
      have hpn : posterNeedsFixing resp = true := by
        unfold posterNeedsFixing
        rw [Bool.and_eq_true]
        exact ⟨(pyContains_iff _ _).mpr hno, (pyContains_iff _ _).mpr hfits⟩
      rw [hpn]
      rfl
  · intro hnfits
    rw [key]
    have hpn : posterNeedsFixing resp = false := by
      unfold posterNeedsFixing
      cases hcc : pyContains "fits properly".toList resp
      · simp [hcc]
      · exact absurd ((pyContains_iff _ _).mp hcc) hnfits
    rw [hpn]
    rfl

/-- Witness for C5: a concrete `Unfit` response satisfying both substring
conditions, classified `Unfit` by the critic model. -/
theorem c5_poster_verdict_witness :
    ((analyzePosterLayout (criticUnfitWith latexA)).1 = false ↔
      ("NO".toList <:+: pyUpper respUnfitPoster ∧
        "fits properly".toList <:+: respUnfitPoster)) ∧
    (analyzePosterLayout (criticUnfitWith latexA)).1 = false := by
  have h := c5_poster_verdict (criticUnfitWith latexA) respUnfitPoster imgB64 rfl
    (by decide) rfl
  exact ⟨h.1, h.1.mpr ⟨by decide, by decide⟩⟩

/-- C6: every exception raised during a Layout-Critic invocation (image
encoding, completion call, or repair generation), in both the poster and the
presentation critic, yields a result with verdict `Unfit` (the fitness
boolean is `False`), a non-empty error rationale, and no suggested repair. -/
theorem c6_critic_failure_conservative (pe qe : CriticEnv)
    (hp : posterCriticRaised pe) (hq : presCriticRaised qe) :
    ((analyzePosterLayout pe).1 = false ∧ (analyzePosterLayout pe).2.1 ≠ [] ∧
      (analyzePosterLayout pe).2.2 = none) ∧
    ((analyzePresentationLayout qe).1 = false ∧ (analyzePresentationLayout qe).2.1 ≠ [] ∧
      (analyzePresentationLayout qe).2.2 = none) := by
  constructor
  · have hkey : ∃ m, analyzePosterLayout pe = (false, m, none) ∧ m ≠ [] := by
      rcases hp with h | ⟨e, h⟩ | ⟨resp, hresp, hn, e, hf⟩
      · exact ⟨"Could not process poster image".toList,
          by simp [analyzePosterLayout, h], by decide⟩
      · cases hb : pe.imageB64 with
        | none =>
          exact ⟨"Could not process poster image".toList,
            by simp [analyzePosterLayout, hb], by decide⟩
        | some b64 =>
          by_cases hbe : b64.isEmpty = true
          · exact ⟨"Could not process poster image".toList,
              by simp [analyzePosterLayout, hb, hbe], by decide⟩
          · refine ⟨"Error analyzing poster layout: ".toList ++ e,
              by simp [analyzePosterLayout, hb, hbe, h], ?_⟩
            intro hcontra
            exact absurd (List.append_eq_nil.mp hcontra).1 (by decide)
      · cases hb : pe.imageB64 with
        | none =>
          exact ⟨"Could not process poster image".toList,
            by simp [analyzePosterLayout, hb], by decide⟩
        | some b64 =>
          by_cases hbe : b64.isEmpty = true
          · exact ⟨"Could not process poster image".toList,
              by simp [analyzePosterLayout, hb, hbe], by decide⟩
          · refine ⟨"Error analyzing poster layout: ".toList ++ e,
              by simp [analyzePosterLayout, hb, hbe, hresp, hn, hf], ?_⟩
            intro hcontra
            exact absurd (List.append_eq_nil.mp hcontra).1 (by decide)
    obtain ⟨m, hm, hmne⟩ := hkey
    exact ⟨by rw [hm], by rw [hm]; exact hmne, by rw [hm]⟩
  · have hkey : ∃ m, analyzePresentationLayout qe = (false, m, none) ∧ m ≠ [] := by
      rcases hq with h | ⟨e, h⟩ | ⟨resp, hresp, hn, e, hf⟩
      · exact ⟨"Could not process presentation image".toList,
          by simp [analyzePresentationLayout, h], by decide⟩
      · cases hb : qe.imageB64 with
        | none =>
          exact ⟨"Could not process presentation image".toList,
            by simp [analyzePresentationLayout, hb], by decide⟩
        | some b64 =>
          by_cases hbe : b64.isEmpty = true
          · exact ⟨"Could not process presentation image".toList,
              by simp [analyzePresentationLayout, hb, hbe], by decide⟩
          · refine ⟨"Error analyzing presentation layout: ".toList ++ e,
              by simp [analyzePresentationLayout, hb, hbe, h], ?_⟩
            intro hcontra
            exact absurd (List.append_eq_nil.mp hcontra).1 (by decide)
      · cases hb : qe.imageB64 with
        | none =>
          exact ⟨"Could not process presentation image".toList,
            by simp [analyzePresentationLayout, hb], by decide⟩
        | some b64 =>
          by_cases hbe : b64.isEmpty = true
          · exact ⟨"Could not process presentation image".toList,
              by simp [analyzePresentationLayout, hb, hbe], by decide⟩
          · refine ⟨"Error analyzing presentation layout: ".toList ++ e,
              by simp [analyzePresentationLayout, hb, hbe, hresp, hn, hf], ?_⟩
            intro hcontra
            exact absurd (List.append_eq_nil.mp hcontra).1 (by decide)
    obtain ⟨m, hm, hmne⟩ := hkey
    exact ⟨by rw [hm], by rw [hm]; exact hmne, by rw [hm]⟩

/-- Witness for C6: a poster critic whose image encoding failed and a
presentation critic whose completion call raised. -/
theorem c6_critic_failure_witness :
    ((analyzePosterLayout criticEncodeFail).1 = false ∧
      (analyzePosterLayout criticEncodeFail).2.1 ≠ [] ∧
      (analyzePosterLayout criticEncodeFail).2.2 = none) ∧
    ((analyzePresentationLayout criticCallRaises).1 = false ∧
      (analyzePresentationLayout criticCallRaises).2.1 ≠ [] ∧
      (analyzePresentationLayout criticCallRaises).2.2 = none) :=
  c6_critic_failure_conservative criticEncodeFail criticCallRaises
    (Or.inl rfl) (Or.inr (Or.inl ⟨_, rfl⟩))

/-- C7: in the poster loop, when the compile of the current cycle succeeds
but PDF→image rasterization fails, the session ends immediately, returning
the current artifact and the current LaTeX document unchanged, with the
Layout Critic not invoked in that cycle. -/
theorem c7_raster_fail_accepts (env : PosterEnv) (maxA : Nat) (cur : List Char)
    (attempt : Nat) (hc : env.compileOk attempt = true)
    (hr : env.rasterizeOk attempt = false) :
    posterLoop env maxA cur attempt = ⟨PosterArtifact.pdf cur, cur, 1, [], attempt⟩ := by
  rw [posterLoop_eq_rasterFail env maxA cur attempt hr]
  simp [posterCompileLatex, hc]

/-- Witness for C7 at a concrete oracle whose first rasterization fails. -/
theorem c7_raster_fail_witness :
    posterLoop envRasterFail 2 latexInit 0 =
      ⟨PosterArtifact.pdf latexInit, latexInit, 1, [], 0⟩ :=
  c7_raster_fail_accepts envRasterFail 2 latexInit 0 rfl rfl

/-- When every cycle up to the budget critiques `Unfit` with a usable (truthy)
suggestion, the poster loop consumes its whole budget and ends holding the
last accepted suggestion, by downward induction on the remaining budget. -/
theorem posterLoop_allUnfit (env : PosterEnv) (maxA : Nat) (s : Nat → List Char)
    (hc : ∀ k, k ≤ maxA → env.compileOk k = true)
    (hr : ∀ k, k ≤ maxA → env.rasterizeOk k = true)
    (hf : ∀ k, k ≤ maxA → (analyzePosterLayout (env.critic k)).1 = false)
    (hs : ∀ k, k ≤ maxA → (analyzePosterLayout (env.critic k)).2.2 = some (s k))
    (hn : ∀ k, k ≤ maxA → s k ≠ []) :
    ∀ n attempt cur, maxA - attempt ≤ n → attempt ≤ maxA →
      (posterLoop env maxA cur attempt).renders = maxA - attempt + 1 ∧
      (posterLoop env maxA cur attempt).finalAttempt = maxA ∧
      (posterLoop env maxA cur attempt).doc =
        (if attempt = maxA then cur else posterCleanLatexCode (s (maxA - 1))) ∧
      (posterLoop env maxA cur attempt).artifact =
        PosterArtifact.pdf
          (if attempt = maxA then cur else posterCleanLatexCode (s (maxA - 1))) := by
  intro n
  induction n with
  | zero =>
    intro attempt cur hle hat
    have heq : attempt = maxA := by omega
    subst heq
    rw [posterLoop_eq_stop env attempt cur attempt (hr attempt hat) (hf attempt hat)
      (fun f _ => Or.inr (by omega))]
    refine ⟨by simp, by simp, by simp, ?_⟩
    simp [posterCompileLatex, hc attempt hat]
  | succ n ih =>
    intro attempt cur hle hat
    by_cases heq : attempt = maxA
    · subst heq
      rw [posterLoop_eq_stop env attempt cur attempt (hr attempt hat) (hf attempt hat)
        (fun f _ => Or.inr (by omega))]
      refine ⟨by simp, by simp, by simp, ?_⟩
      simp [posterCompileLatex, hc attempt hat]
    · have hlt : attempt < maxA := by omega
      rw [posterLoop_eq_recurse env maxA cur attempt (s attempt) (hr attempt hat)
        (hf attempt hat) (hs attempt hat) (hn attempt hat) hlt]
      have hrec := ih (attempt + 1) (posterCleanLatexCode (s attempt)) (by omega) (by omega)
      rcases hrec with ⟨h1, h2, h3, h4⟩
      by_cases he2 : attempt + 1 = maxA
      · have hm1 : maxA - 1 = attempt := by omega
        rw [if_pos he2] at h3 h4
        refine ⟨?_, ?_, ?_, ?_⟩
        · show (posterLoop env maxA (posterCleanLatexCode (s attempt)) (attempt + 1)).renders
            + 1 = maxA - attempt + 1
          omega
        · exact h2
        · rw [if_neg heq, hm1]
          exact h3
        · rw [if_neg heq, hm1]
          exact h4
      · rw [if_neg he2] at h3 h4
        refine ⟨?_, ?_, ?_, ?_⟩
        · show (posterLoop env maxA (posterCleanLatexCode (s attempt)) (attempt + 1)).renders
            + 1 = maxA - attempt + 1
          omega
        · exact h2
        · rw [if_neg heq]
          exact h3
        · rw [if_neg heq]
          exact h4

/-- C2: if every inspection of a poster repair session returns `Unfit` with a
usable suggestion, exactly `maxAttempts + 1` renders occur and the returned
document and artifact come from the last accepted suggestion; concretely,
with `maxAttempts = 2` and cycles yielding (Unfit, suggestion A),
(Unfit, suggestion B), (Unfit, no suggestion), the session ends at attempt
index 2, returns the artifact and document produced from B, and performs
exactly 3 renders (never a further one). -/
theorem c2_budget_respected :
    (∀ (env : PosterEnv) (maxA : Nat) (cur : List Char) (s : Nat → List Char),
      (∀ k, k ≤ maxA → env.compileOk k = true) →
      (∀ k, k ≤ maxA → env.rasterizeOk k = true) →
      (∀ k, k ≤ maxA → (analyzePosterLayout (env.critic k)).1 = false) →
      (∀ k, k ≤ maxA → (analyzePosterLayout (env.critic k)).2.2 = some (s k)) →
      (∀ k, k ≤ maxA → s k ≠ []) → 1 ≤ maxA →
      (posterLoop env maxA cur 0).renders = maxA + 1 ∧
      (posterLoop env maxA cur 0).finalAttempt = maxA ∧
      (posterLoop env maxA cur 0).doc = posterCleanLatexCode (s (maxA - 1)) ∧
      (posterLoop env maxA cur 0).artifact =
        PosterArtifact.pdf (posterCleanLatexCode (s (maxA - 1)))) ∧
    posterLoop envC2 2 latexInit 0 =
      ⟨PosterArtifact.pdf latexB, latexB, 3,
        [PosterArtifact.pdf latexInit, PosterArtifact.pdf latexA, PosterArtifact.pdf latexB],
        2⟩ := by
  constructor
  · intro env maxA cur s hc hr hf hs hn hmax
    have h := posterLoop_allUnfit env maxA s hc hr hf hs hn maxA 0 cur (by omega) (by omega)
    have hne : ¬ (0 = maxA) := by omega
    rcases h with ⟨h1, h2, h3, h4⟩
    rw [if_neg hne] at h3 h4
    exact ⟨by omega, h2, h3, h4⟩
  · rw [posterLoop_eq_recurse envC2 2 latexInit 0 (stripFences latexA) rfl (by decide)
      (by decide) (by decide) (by decide)]
    have eA : posterCleanLatexCode (stripFences latexA) = latexA := by decide
    rw [eA]
    rw [posterLoop_eq_recurse envC2 2 latexA 1 (stripFences latexB) rfl (by decide)
      (by decide) (by decide) (by decide)]
    have eB : posterCleanLatexCode (stripFences latexB) = latexB := by decide
    rw [eB]
    rw [posterLoop_eq_stop envC2 2 latexB 2 rfl (by decide) (fun f _ => Or.inr (by omega))]
    decide

/-- Witness for C2's universally quantified part, at an oracle whose every
cycle critiques `Unfit` with suggestion B. -/
theorem c2_budget_respected_witness :
    (posterLoop envAllUnfit 2 latexInit 0).renders = 3 ∧
    (posterLoop envAllUnfit 2 latexInit 0).doc =
      posterCleanLatexCode (stripFences latexB) := by
  have h := c2_budget_respected.1 envAllUnfit 2 latexInit (fun _ => stripFences latexB)
    (fun _ _ => rfl) (fun _ _ => rfl)
    (fun _ _ => by
      show (analyzePosterLayout (criticUnfitWith latexB)).1 = false
      decide)
    (fun _ _ => by
      show (analyzePosterLayout (criticUnfitWith latexB)).2.2 = some (stripFences latexB)
      decide)
    (fun _ _ => by
      show stripFences latexB ≠ []
      decide)
    (by omega)
  exact ⟨h.1, h.2.2.1⟩

/-- When every sampled page rasterizes, the page scan analyzes exactly the
sampled pages. -/
theorem scanFold_analyzed (env : PresEnv) (iter : Nat) :
    ∀ (pages : List Nat) (st : ScanState),
      (∀ p ∈ pages, env.rasterizeOk iter p = true) →
      (pages.foldl (scanStep env iter) st).analyzed = st.analyzed + pages.length := by
  intro pages
  induction pages with
  | nil => intro st _; simp
  | cons p ps ih =>
    intro st hall
    rw [List.foldl_cons, ih _ (fun q hq => hall q (List.mem_cons_of_mem p hq))]
    have hp : env.rasterizeOk iter p = true := hall p (List.mem_cons_self p ps)
    simp [scanStep, hp]
    omega

theorem pagesToAnalyze_pos (total : Nat) : 1 ≤ pagesToAnalyze total := by
  simp only [pagesToAnalyze]
  split
  · omega
  · exact Nat.le_max_left 1 _

theorem samplePages_length_pos (total : Nat) (ht : 1 ≤ total) :
    1 ≤ (samplePages total).length := by
  have hlen : (samplePages total).length = min (pagesToAnalyze total) total := by
    simp [samplePages]
  rw [hlen]
  exact le_min (pagesToAnalyze_pos total) ht

/-- C4: after inspecting the sampled pages (all of which rasterized), the
controller's quality ratio has the number of analyzed pages — equal to the
number of sampled pages — as denominator, and whenever that ratio is at
least `0.7` the session terminates successfully after one cycle, returning
the current artifact and document. -/
theorem c4_quality_ratio_terminates (env : PresEnv) (maxI total : Nat) (doc : List Char)
    (hm : 0 < maxI) (ht : 1 ≤ total) (hc : env.compileOk 0 = true)
    (hall : ∀ p ∈ samplePages total, env.rasterizeOk 0 p = true)
    (hq : (7 : ℚ) / 10 ≤
      (goodSlides (scanPages env 0 (samplePages total)) : ℚ) /
        ((scanPages env 0 (samplePages total)).analyzed : ℚ)) :
    (scanPages env 0 (samplePages total)).analyzed = (samplePages total).length ∧
    presLoop env maxI total doc 0 = ⟨some (PresArtifact.pdf doc), doc, 1, 0⟩ := by
  have hana : (scanPages env 0 (samplePages total)).analyzed = (samplePages total).length := by
    have h := scanFold_analyzed env 0 (samplePages total) ⟨[], [], 0⟩ hall
    simpa [scanPages] using h
  have hpos : 1 ≤ (samplePages total).length := samplePages_length_pos total ht
  exact ⟨hana, presLoop_eq_ratioOk env maxI total doc 0 hm hc (by omega) hq⟩

/-- Witness for C4: 10 total pages, 5 sampled, 4 of them good (ratio 0.8),
one `Unfit` — the session still terminates successfully after one cycle. -/
theorem c4_quality_ratio_witness :
    (scanPages envC4 0 (samplePages 10)).analyzed = (samplePages 10).length ∧
    presLoop envC4 1 10 latexInit 0 =
      ⟨some (PresArtifact.pdf latexInit), latexInit, 1, 0⟩ :=
  c4_quality_ratio_terminates envC4 1 10 latexInit (by decide) (by decide) rfl
    (by decide)
    (by
      have e1 : goodSlides (scanPages envC4 0 (samplePages 10)) = 4 := by decide
      have e2 : (scanPages envC4 0 (samplePages 10)).analyzed = 5 := by decide
      rw [e1, e2]
      norm_num)

/-- C8 counterexample: with the first compile failing, the fallback artifact
re-enters the loop rather than being returned outright — it is submitted to
rasterization and the Layout Critic IS invoked on it, and (the critic having
proposed a repair) the session's terminal artifact is a later compiled PDF,
not the fallback artifact. -/
theorem c8_counterexample :
    (posterLoop envC8 2 latexInit 0).inspected =
      [PosterArtifact.fallbackHtml latexInit, PosterArtifact.pdf latexB] ∧
    (posterLoop envC8 2 latexInit 0).artifact = PosterArtifact.pdf latexB ∧
    (posterLoop envC8 2 latexInit 0).artifact ≠ PosterArtifact.fallbackHtml latexInit := by
  rw [posterLoop_eq_recurse envC8 2 latexInit 0 (stripFences latexB) rfl (by decide)
    (by decide) (by decide) (by decide)]
  have eB : posterCleanLatexCode (stripFences latexB) = latexB := by decide
  rw [eB, posterLoop_eq_fits envC8 2 latexB 1 rfl (by decide)]
  refine ⟨by decide, by decide, by decide⟩

/-- C8 (amended): when the first render fails, `_compile_latex` returns the
fallback artifact's path, which flows back into the loop: the fallback is
passed to rasterization; when that rasterization fails (the behavior for the
HTML fallback), the session returns the fallback artifact with the original
document and the Layout Critic is never invoked. -/
theorem c8_first_render_fallback (env : PosterEnv) (maxA : Nat) (doc : List Char)
    (hc : env.compileOk 0 = false) (hfb : env.fallbackOk 0 = true)
    (hr : env.rasterizeOk 0 = false) :
    posterLoop env maxA doc 0 = ⟨PosterArtifact.fallbackHtml doc, doc, 1, [], 0⟩ := by
  rw [posterLoop_eq_rasterFail env maxA doc 0 hr]
  simp [posterCompileLatex, hc, hfb]

/-- Witness for the amended C8 at a concrete oracle. -/
theorem c8_first_render_fallback_witness :
    posterLoop envC8Amended 2 latexInit 0 =
      ⟨PosterArtifact.fallbackHtml latexInit, latexInit, 1, [], 0⟩ :=
  c8_first_render_fallback envC8Amended 2 latexInit rfl rfl rfl

/-- C10: `Settings.set_override` with a blank (empty or whitespace-only)
value removes any existing override for the key — leaving the state unchanged
when none exists — so `get_value` falls back to the environment default;
with a non-blank value it stores the stripped value, which `get_value` then
returns in preference to the default. -/
theorem c10_set_override (st : SettingsState) (key value : List Char) :
    (pyStrip value = [] →
      (setOverride st key value).overrides key = none ∧
      getValue (setOverride st key value) key = st.envDefaults key ∧
      (st.overrides key = none → setOverride st key value = st)) ∧
    (pyStrip value ≠ [] →
      (setOverride st key value).overrides key = some (pyStrip value) ∧
      getValue (setOverride st key value) key = pyStrip value) := by
  constructor
  · intro hb
    have hcond : ¬ (value ≠ [] ∧ pyStrip value ≠ []) := by
      rintro ⟨-, h2⟩
      exact h2 hb
    by_cases hk : (st.overrides key).isSome
    · refine ⟨?_, ?_, ?_⟩
      · simp [setOverride, hcond, hk]
      · simp [getValue, setOverride, hcond, hk]
      · intro hnone
        rw [hnone] at hk
        simp at hk
    · have hnone : st.overrides key = none := by
        cases h : st.overrides key with
        | none => rfl
        | some v => rw [h] at hk; simp at hk
      refine ⟨?_, ?_, fun _ => ?_⟩
      · simp [setOverride, hcond, hk, hnone]
      · simp [getValue, setOverride, hcond, hk, hnone]
      · simp [setOverride, hcond, hk]
  · intro hnb
    have hv : value ≠ [] := by
      intro h
      rw [h] at hnb
      exact hnb rfl
    refine ⟨?_, ?_⟩
    · simp [setOverride, hv, hnb]
    · simp [getValue, setOverride, hv, hnb]

/-- Witness for C10: deleting an existing override with a whitespace-only
value and storing a stripped non-blank value, at a concrete state. -/
theorem c10_set_override_witness :
    ((setOverride settingsW keyW "   ".toList).overrides keyW = none ∧
      getValue (setOverride settingsW keyW "   ".toList) keyW =
        settingsW.envDefaults keyW) ∧
    ((setOverride settingsW keyW "  fresh-key  ".toList).overrides keyW =
        some (pyStrip "  fresh-key  ".toList) ∧
      getValue (setOverride settingsW keyW "  fresh-key  ".toList) keyW =
        pyStrip "  fresh-key  ".toList) := by
  have h1 := (c10_set_override settingsW keyW "   ".toList).1 (by decide)
  have h2 := (c10_set_override settingsW keyW "  fresh-key  ".toList).2 (by decide)
  exact ⟨⟨h1.1, h1.2.1⟩, h2⟩
